import Mathlib

/-!
Shallow embedding of the email-assistant orchestration notebook
(tool definitions, triage router, LLM node, tool handler, conditional
routing, and the composed workflow graph) together with theorems about
the claims of its specification.

The opaque language model is represented as an explicit parameter (a
"port" function); all orchestration code is translated directly from the
notebook cells.
-/

namespace EmailAssistant

/-- Roles of chat messages; mirrors the role strings used in the
notebook (`system`, `user`, `assistant` / AI messages, `tool`). -/
inductive Role where
  | system
  | user
  | assistant
  | tool
deriving DecidableEq, Repr

/-- A requested tool call as produced by the model: `{id, name, args}`.
Arguments are modelled as a string-keyed association list (the Python
side passes a dict of arguments to `tool.invoke`). -/
structure ToolCall where
  id : String
  name : String
  args : List (String × String)
deriving DecidableEq, Repr

/-- One conversation turn. Assistant turns may carry `tool_calls`;
tool-result turns carry the `tool_call_id` of the originating call
(`none` for every other role, matching the notebook's message dicts). -/
structure Msg where
  role : Role
  content : String
  tool_calls : List ToolCall := []
  tool_call_id : Option String := none
deriving DecidableEq, Repr

/-- The inbound email: the `email_input` dict with keys
`author`, `to`, `subject`, `email_thread`. -/
structure EmailInput where
  author : String
  -- the Python dict key "to"; `to` is reserved in Lean
  to_ : String
  subject : String
  email_thread : String
deriving DecidableEq, Repr

/-- The graph state: LangGraph's `MessagesState` extended with
`email_input` and `classification_decision`.  `classification_decision`
is absent until the triage node writes it, hence `Option`; the code
stores the raw classification string returned by the router model. -/
structure State where
  messages : List Msg
  email_input : EmailInput
  classification_decision : Option String := none
deriving DecidableEq, Repr

/-- A node's state update (the dict a LangGraph node returns).  A key
that the node does not set is `none` / `[]`. -/
structure Update where
  messages : List Msg := []
  email_input : Option EmailInput := none
  classification_decision : Option String := none
deriving DecidableEq, Repr

/-- LangGraph's update semantics for this `State`: the `messages` key
has an append reducer (`MessagesState`), the other keys are overwritten
when present in the update and kept otherwise. -/
def applyUpdate (s : State) (u : Update) : State :=
  { messages := s.messages ++ u.messages
    email_input := match u.email_input with
      | some e => e
      | none => s.email_input
    classification_decision := match u.classification_decision with
      | some c => some c
      | none => s.classification_decision }

/-- Argument lookup in a tool call's argument dict.  (Pydantic argument
validation for missing keys is outside the modelled claims; a missing
key is rendered as the empty string.) -/
def lookupArg (args : List (String × String)) (k : String) : String :=
  match args.lookup k with
  | some v => v
  | none => ""

/-- `write_email(to, subject, content)` placeholder tool. -/
def write_email (args : List (String × String)) : String :=
  "Email sent to " ++ lookupArg args "to" ++ " with subject '" ++
    lookupArg args "subject" ++ "' and content: " ++ lookupArg args "content"

/-- `schedule_meeting(attendees, subject, duration_minutes, preferred_day,
start_time)` placeholder tool.  The `strftime` rendering of
`preferred_day` and `len(attendees)` are abstracted: the argument dict
carries them already rendered as strings. -/
def schedule_meeting (args : List (String × String)) : String :=
  "Meeting '" ++ lookupArg args "subject" ++ "' scheduled on " ++
    lookupArg args "preferred_day" ++ " at " ++ lookupArg args "start_time" ++
    " for " ++ lookupArg args "duration_minutes" ++ " minutes with " ++
    lookupArg args "attendees" ++ " attendees"

/-- `check_calendar_availability(day)` placeholder tool. -/
def check_calendar_availability (args : List (String × String)) : String :=
  "Available times on " ++ lookupArg args "day" ++
    ": 9:00 AM, 2:00 PM, 4:00 PM"

/-- The `Done` completion-signal tool (`@tool class Done(BaseModel)`).
Invoking it constructs the pydantic instance; its textual rendering in a
tool message is modelled as the field assignment. -/
def Done (args : List (String × String)) : String :=
  "done=" ++ lookupArg args "done"

/-- `tools_by_name`: the registry built from
`[write_email, schedule_meeting, check_calendar_availability, Done]`;
`none` for an unregistered name (a Python `KeyError`). -/
def tools_by_name (name : String) : Option (List (String × String) → String) :=
  if name = "write_email" then some write_email
  else if name = "schedule_meeting" then some schedule_meeting
  else if name = "check_calendar_availability" then some check_calendar_availability
  else if name = "Done" then some Done
  else none

/-- Modelled from the spec: `default_background` lives in
`email_assistant.prompts`, outside the provided sources.  Only its
constancy matters to the claims; its text is a fixed placeholder. -/
def default_background : String := "<default background>"

/-- Modelled from the spec: `default_triage_instructions` lives in
`email_assistant.prompts`, outside the provided sources; a fixed
placeholder standing for the constant triage-rules text. -/
def default_triage_instructions : String := "<default triage instructions>"

/-- `triage_system_prompt.format(background, triage_instructions)`: the
template text is reproduced from the notebook's captured output. -/
def triage_system_prompt_format (background triage_instructions : String) : String :=
  "\n\n< Role >\nYour role is to triage incoming emails based upon instructs and background information below.\n</ Role >\n\n< Background >\n"
    ++ background ++
    ". \n</ Background >\n\n< Instructions >\nCategorize each email into one of three categories:\n1. IGNORE - Emails that are not worth responding to or tracking\n2. NOTIFY - Important information that worth notification but doesn't require a response\n3. RESPOND - Emails that need a direct response\nClassify the below email into one of these categories.\n</ Instructions >\n\n< Rules >\n"
    ++ triage_instructions ++ "\n</ Rules >\n"

/-- Modelled from the spec: `triage_user_prompt` lives in
`email_assistant.prompts`, outside the provided sources.  Per the spec
the decision context is built from the message's author/recipient/
subject/thread fields; the formatted prompt is modelled as a record of
those four fields. -/
def triage_user_prompt_format (author to_ subject email_thread : String) : String :=
  "From: " ++ author ++ "\nTo: " ++ to_ ++ "\nSubject: " ++ subject ++
    "\n\n" ++ email_thread

/-- Modelled from the spec: `parse_email` lives in
`email_assistant.utils`, outside the provided sources; it unpacks the
`email_input` dict into `(author, to, subject, email_thread)`. -/
def parse_email (e : EmailInput) : String × String × String × String :=
  (e.author, e.to_, e.subject, e.email_thread)

/-- Modelled from the spec: `format_email_markdown` lives in
`email_assistant.utils`, outside the provided sources; a human-readable
rendering of the email used to seed the response agent's first turn. -/
def format_email_markdown (subject author to_ email_thread : String) : String :=
  "**Subject**: " ++ subject ++ "\n**From**: " ++ author ++
    "\n**To**: " ++ to_ ++ "\n\n" ++ email_thread

/-- The structured triage output: `RouterSchema` with a free-text
reasoning field and the classification.  The classification is carried
as a raw string so that out-of-enum model outputs are representable
(the router code compares it against the three literals). -/
structure RouterSchema where
  reasoning : String
  classification : String
deriving DecidableEq, Repr

/-- The triage decision port: one call of `llm_router.invoke` on a list
of chat messages, returning a `RouterSchema`. -/
def RouterPort : Type := List Msg → RouterSchema

/-- The act decision port: one call of `llm_with_tools.invoke` on the
prompt messages, returning one assistant message. -/
def ActPort : Type := List Msg → Msg

/-- Where `triage_router` routes: the response agent or `END`. -/
inductive Goto where
  | response_agent
  | end_
deriving DecidableEq, Repr

/-- A LangGraph `Command(goto, update)`. -/
structure Command where
  goto : Goto
  update : Update
deriving DecidableEq, Repr

/-- The two chat messages `triage_router` passes to the router model:
the formatted system prompt (built from the fixed default background and
triage-instruction constants) and the user prompt built from the parsed
email fields. -/
def triage_ctx (s : State) : List Msg :=
  let p := parse_email s.email_input
  [ { role := .system
      content := triage_system_prompt_format default_background default_triage_instructions }
  , { role := .user
      content := triage_user_prompt_format p.1 p.2.1 p.2.2.1 p.2.2.2 } ]

/-- `triage_router`: calls the router port once on `triage_ctx` and maps
the classification to a `Command`; any classification outside
ignore/respond/notify raises `ValueError` (modelled as `Except.error`). -/
def triage_router (router : RouterPort) (s : State) : Except String Command :=
  let p := parse_email s.email_input
  let result := router (triage_ctx s)
  if result.classification = "respond" then
    .ok { goto := .response_agent
          update :=
            { messages :=
                [ { role := .user
                    content := "Respond to the email: \n\n" ++
                      format_email_markdown p.2.2.1 p.1 p.2.1 p.2.2.2 } ]
              classification_decision := some result.classification } }
  else if result.classification = "ignore" then
    .ok { goto := .end_
          update := { classification_decision := some result.classification } }
  else if result.classification = "notify" then
    .ok { goto := .end_
          update := { classification_decision := some result.classification } }
  else
    .error ("Invalid classification: " ++ result.classification)

/-- Modelled from the spec: `agent_system_prompt` and its interpolated
preference texts live in `email_assistant.prompts`, outside the provided
sources; the formatted system message is a fixed constant. -/
def agent_system_msg : Msg :=
  { role := .system, content := "<agent system prompt>" }

/-- `llm_call`: invokes the act port on the system prompt followed by
the current messages and returns the single-message update. -/
def llm_call (port : ActPort) (s : State) : Update :=
  { messages := [ port (agent_system_msg :: s.messages) ] }

/-- One tool execution: registry lookup then invoke; an unregistered
name is the Python `KeyError`. -/
def run_tool (tc : ToolCall) : Except String String :=
  match tools_by_name tc.name with
  | some f => .ok (f tc.args)
  | none => .error ("KeyError: " ++ tc.name)

/-- The body of `tool_handler`'s loop: executes the tool calls in list
order, building one tool-result message per call (stopping at the first
unregistered name, as the Python loop would raise there). -/
def tool_msgs : List ToolCall → Except String (List Msg)
  | [] => .ok []
  | tc :: rest =>
      match run_tool tc with
      | .error e => .error e
      | .ok observation =>
          match tool_msgs rest with
          | .error e => .error e
          | .ok ms =>
              .ok ({ role := .tool, content := observation
                     tool_call_id := some tc.id } :: ms)

/-- `tool_handler`: iterates over the tool calls of the last message and
returns the list of tool-result messages as the update.  An empty
message list is the Python `IndexError` on `messages[-1]` (never reached
inside the graph). -/
def tool_handler (s : State) : Except String Update :=
  match s.messages.getLast? with
  | none => .error "IndexError: messages is empty"
  | some last =>
      match tool_msgs last.tool_calls with
      | .error e => .error e
      | .ok ms => .ok { messages := ms }

/-- The two routing targets of `should_continue`. -/
inductive Route where
  | tool_handler
  | end_
deriving DecidableEq, Repr

/-- The `for` loop inside `should_continue`: both branches of its body
return, so only the first tool call is ever inspected; an empty list
falls through without a value (`none`). -/
def should_continue_scan : List ToolCall → Option Route
  | [] => none
  | tc :: _ => if tc.name = "Done" then some .end_ else some .tool_handler

/-- `should_continue`: inspects the last message's tool calls; `none`
models the Python function returning no route (falling off the end, or
`IndexError` on an empty message list). -/
def should_continue (s : State) : Option Route :=
  match s.messages.getLast? with
  | none => none
  | some last => should_continue_scan last.tool_calls

/-- Outcome of running the agent subgraph: reached `END`, the router
returned no route (a runtime error in LangGraph), a tool raised, or the
supplied fuel ran out with the loop still cycling. -/
inductive AgentResult where
  | completed (s : State)
  | routeNone (s : State)
  | toolError (s : State) (e : String)
  | outOfFuel (s : State)
deriving DecidableEq, Repr

/-- The state carried by an `AgentResult`. -/
def AgentResult.state : AgentResult → State
  | .completed s => s
  | .routeNone s => s
  | .toolError s _ => s
  | .outOfFuel s => s

/-- Whether the agent subgraph reached `END`. -/
def AgentResult.isCompleted : AgentResult → Bool
  | .completed _ => true
  | _ => false

/-- Whether the loop was still cycling when the fuel ran out. -/
def AgentResult.isOutOfFuel : AgentResult → Bool
  | .outOfFuel _ => true
  | _ => false

/-- The agent subgraph (`overall_workflow` of the agent section):
`START → llm_call`, then `should_continue` routes to `tool_handler`
(which loops back to `llm_call`) or to `END`.  The graph itself has no
iteration bound, so the recursion is indexed by fuel counting
`llm_call` rounds; the second component is the number of act-port calls
made. -/
def agent_loop (port : ActPort) : Nat → State → AgentResult × Nat
  | 0, s => (.outOfFuel s, 0)
  | Nat.succ n, s =>
      let s1 := applyUpdate s (llm_call port s)
      match should_continue s1 with
      | some .end_ => (.completed s1, 1)
      | some .tool_handler =>
          match tool_handler s1 with
          | .error e => (.toolError s1 e, 1)
          | .ok u =>
              let r := agent_loop port n (applyUpdate s1 u)
              (r.1, r.2 + 1)
      | none => (.routeNone s1, 1)

/-- The initial state `overall_workflow.invoke({"email_input": email})`
starts from. -/
def initState (email : EmailInput) : State :=
  { messages := [], email_input := email, classification_decision := none }

/-- The combined workflow: `START → triage_router`; its `Command` either
ends the run or enters the response agent.  Errors raised by the triage
node propagate.  The `Nat` component counts act-port calls. -/
def overall_workflow (router : RouterPort) (port : ActPort) (fuel : Nat)
    (email : EmailInput) : Except String (AgentResult × Nat) :=
  let init := initState email
  match triage_router router init with
  | .error e => .error e
  | .ok cmd =>
      let s1 := applyUpdate init cmd.update
      match cmd.goto with
      | .end_ => .ok (.completed s1, 0)
      | .response_agent => .ok (agent_loop port fuel s1)


/-- The result text a registered tool produces for a call (empty for an
unregistered name; only used under a registered-name hypothesis). -/
def tool_observation (tc : ToolCall) : String :=
  match tools_by_name tc.name with
  | some f => f tc.args
  | none => ""

/-- Number of tool-result turns in a message list carrying a given
originating call id. -/
def countMsgs (l : List Msg) (i : String) : Nat :=
  (l.filter (fun m => m.tool_call_id == some i)).length

/-- Number of tool-result turns in the conversation state for an id. -/
def resultCount (s : State) (i : String) : Nat :=
  countMsgs s.messages i

/-- The invariant of claim C6: every call id has at most one
corresponding tool-result turn in conversation state. -/
def AtMostOneResult (s : State) : Prop :=
  ∀ i, resultCount s i ≤ 1

/-- The spec's assumption that tool-call ids are unique within a run:
each act-port response carries pairwise-distinct call ids that do not
collide with any id already correlated in the prompt messages, and an
assistant turn itself is not a tool-result turn. -/
def FreshActPort (port : ActPort) : Prop :=
  ∀ msgs,
    (((port msgs).tool_calls.map ToolCall.id).Nodup) ∧
    (port msgs).tool_call_id = none ∧
    ∀ tc ∈ (port msgs).tool_calls, ∀ m ∈ msgs, m.tool_call_id ≠ some tc.id

/-! ### Concrete inputs used by witnesses and counterexamples -/

/-- A sample inbound email. -/
def wEmail : EmailInput :=
  { author := "Alice Smith <alice.smith@company.com>"
    to_ := "John Doe <john.doe@company.com>"
    subject := "Quick question about API documentation"
    email_thread := "Hi John, could you clarify the docs?" }

/-- A concrete `write_email` tool call. -/
def w5call1 : ToolCall :=
  { id := "id1", name := "write_email"
    args := [("to", "alice@x"), ("subject", "hi"), ("content", "hello")] }

/-- A concrete `check_calendar_availability` tool call. -/
def w5call2 : ToolCall :=
  { id := "id2", name := "check_calendar_availability"
    args := [("day", "Tuesday")] }

/-- An assistant turn requesting two safe tool calls. -/
def w5msg : Msg :=
  { role := .assistant, content := "", tool_calls := [w5call1, w5call2] }

/-- A state whose last message is `w5msg`. -/
def w5state : State :=
  { messages := [w5msg], email_input := wEmail }

/-- The update `tool_handler` produces on `w5state`. -/
def w10update : Update :=
  { messages :=
      [ { role := .tool
          content := "Email sent to alice@x with subject 'hi' and content: hello"
          tool_call_id := some "id1" }
      , { role := .tool
          content := "Available times on Tuesday: 9:00 AM, 2:00 PM, 4:00 PM"
          tool_call_id := some "id2" } ] }

/-- An act port that always requests one `check_calendar_availability`
call and never signals `Done`: an adversarial but contract-conforming
Decision Port used to probe the loop bound. -/
def nonDonePort : ActPort := fun _ =>
  { role := .assistant, content := ""
    tool_calls := [ { id := "c", name := "check_calendar_availability"
                      args := [("day", "Monday")] } ] }

/-- An act port whose batch contains `Done`, but in second position
behind a `write_email` call. -/
def doneSecondPort : ActPort := fun _ =>
  { role := .assistant, content := ""
    tool_calls :=
      [ { id := "call1", name := "write_email"
          args := [("to", "alice@x"), ("subject", "hi"), ("content", "hello")] }
      , { id := "call2", name := "Done", args := [("done", "true")] } ] }

/-- An act port whose first (and only) tool call is `Done`. -/
def doneFirstPort : ActPort := fun _ =>
  { role := .assistant, content := ""
    tool_calls := [ { id := "d1", name := "Done", args := [("done", "true")] } ] }

/-- An act port that returns a plain assistant message with no tool
calls (used to instantiate port hypotheses in witnesses). -/
def noToolPort : ActPort := fun _ =>
  { role := .assistant, content := "ok" }

/-- A router port that always classifies `notify`. -/
def notifyRouter : RouterPort := fun _ =>
  { reasoning := "informational only", classification := "notify" }

/-- A router port that always classifies `respond`. -/
def respondRouter : RouterPort := fun _ =>
  { reasoning := "needs a reply", classification := "respond" }

/-- A router port that returns a category outside the fixed enum. -/
def bananaRouter : RouterPort := fun _ =>
  { reasoning := "confused", classification := "banana" }

/-- Modelled from the spec: the Memory Store is a durable namespaced
store of preference documents; only the two namespaces the spec says the
Triage Stage reads (background facts and triage rules) are modelled. -/
structure MemoryStore where
  background : String
  triage_rules : String
deriving DecidableEq, Repr

/-- The triage decision context as the spec words it (a refinement
reference for claim C7, not a transcription of the source): built from
the message fields together with the background and triage-rule
preference documents read from the Memory Store for the run. -/
def spec_triage_ctx (store : MemoryStore) (s : State) : List Msg :=
  let p := parse_email s.email_input
  [ { role := .system
      content := triage_system_prompt_format store.background store.triage_rules }
  , { role := .user
      content := triage_user_prompt_format p.1 p.2.1 p.2.2.1 p.2.2.2 } ]

/-- A Memory Store holding user-updated preference documents, distinct
from the fixed defaults. -/
def customStore : MemoryStore :=
  { background := "custom background", triage_rules := "custom triage rules" }

/-- A router port used to witness single-call dependence. -/
def w7router : RouterPort := fun _ =>
  { reasoning := "r", classification := "ignore" }

/-- A second router port agreeing with `w7router` on two-message
contexts (in particular on the triage context) but not elsewhere. -/
def w7router2 : RouterPort := fun msgs =>
  if msgs.length = 2 then { reasoning := "r", classification := "ignore" }
  else { reasoning := "q", classification := "respond" }

/-- The result of one fixed full-workflow execution, used to witness
replay determinism. -/
def w8run : Except String (AgentResult × Nat) :=
  overall_workflow respondRouter doneFirstPort 3 wEmail

/-! ### Helper lemmas -/

theorem applyUpdate_messages (s : State) (u : Update) :
    (applyUpdate s u).messages = s.messages ++ u.messages := rfl

theorem tool_msgs_ok_of_registered (tcs : List ToolCall)
    (h : ∀ tc ∈ tcs, (tools_by_name tc.name).isSome) :
    tool_msgs tcs = .ok (tcs.map (fun tc =>
      { role := .tool, content := tool_observation tc
        tool_call_id := some tc.id })) := by
  induction tcs with
  | nil => rfl
  | cons tc rest ih =>
      have h1 : (tools_by_name tc.name).isSome := h tc (by simp)
      have h2 := ih (fun x hx => h x (by simp [hx]))
      cases hn : tools_by_name tc.name with
      | none => rw [hn] at h1; simp at h1
      | some f =>
          simp [tool_msgs, run_tool, hn, h2, tool_observation]

theorem tool_msgs_ids (tcs : List ToolCall) :
    ∀ ms, tool_msgs tcs = .ok ms →
      ms.map Msg.tool_call_id = tcs.map (fun tc => some tc.id) := by
  induction tcs with
  | nil => intro ms h; cases h; rfl
  | cons tc rest ih =>
      intro ms h
      unfold tool_msgs at h
      cases hr : run_tool tc with
      | error e => rw [hr] at h; cases h
      | ok observation =>
          rw [hr] at h
          cases hm : tool_msgs rest with
          | error e => rw [hm] at h; cases h
          | ok ms2 =>
              rw [hm] at h
              cases h
              simp [ih ms2 hm]

/-- C9 helper restated at the state level is in the claim theorem
itself; this lemma gives the `getLast?` of an appended message. -/
theorem messages_getLast_append (l : List Msg) (m : Msg) :
    (l ++ [m]).getLast? = some m := List.getLast?_concat _

/-! ### Claim theorems -/

/-- C9: `should_continue` is total only when the last message carries at
least one tool call: a non-empty tool-call list yields a route decided
solely by the first tool call, and an empty tool-call list yields no
route at all. -/
theorem C9_should_continue_first_call (s : State) (last : Msg)
    (hl : s.messages.getLast? = some last) :
    (last.tool_calls = [] → should_continue s = none) ∧
    ∀ tc rest, last.tool_calls = tc :: rest →
      should_continue s =
        some (if tc.name = "Done" then Route.end_ else Route.tool_handler) := by
  constructor
  · intro h
    simp [should_continue, hl, h, should_continue_scan]
  · intro tc rest h
    by_cases hn : tc.name = "Done" <;>
      simp [should_continue, hl, h, should_continue_scan, hn]

/-- Witness for C9 at a concrete state whose last message requests a
`write_email` call first. -/
theorem C9_witness :
    w5state.messages.getLast? = some w5msg ∧
    should_continue w5state = some Route.tool_handler := by
  refine ⟨rfl, ?_⟩
  have h := (C9_should_continue_first_call w5state w5msg rfl).2 w5call1 [w5call2] rfl
  rw [h]
  decide

/-- C5: within one round, `tool_handler` executes the requested tool
calls in the order the Decision Port returned them and appends one
tool-result turn per call in that same order (each carrying the
originating call id). -/
theorem C5_results_in_request_order (s : State) (last : Msg)
    (hl : s.messages.getLast? = some last)
    (hreg : ∀ tc ∈ last.tool_calls, (tools_by_name tc.name).isSome) :
    tool_handler s = .ok
      { messages := last.tool_calls.map (fun tc =>
          { role := .tool, content := tool_observation tc
            tool_call_id := some tc.id }) } := by
  simp only [tool_handler, hl]
  rw [tool_msgs_ok_of_registered last.tool_calls hreg]

/-- Witness for C5: a batch of two safe calls produces exactly the two
tool-result turns, in request order. -/
theorem C5_witness :
    w5state.messages.getLast? = some w5msg ∧
    (∀ tc ∈ w5msg.tool_calls, (tools_by_name tc.name).isSome) ∧
    tool_handler w5state = .ok
      { messages := w5msg.tool_calls.map (fun tc =>
          { role := .tool, content := tool_observation tc
            tool_call_id := some tc.id }) } :=
  ⟨rfl, by decide, C5_results_in_request_order w5state w5msg rfl (by decide)⟩

/-- C10: the loop nodes update only the `messages` key: the updates
produced by `llm_call` and `tool_handler` carry no `email_input` or
`classification_decision`, so applying them leaves those state keys
unchanged. -/
theorem C10_frame_only_messages (port : ActPort) (s : State) :
    ((llm_call port s).email_input = none ∧
     (llm_call port s).classification_decision = none ∧
     (applyUpdate s (llm_call port s)).email_input = s.email_input ∧
     (applyUpdate s (llm_call port s)).classification_decision
       = s.classification_decision) ∧
    (∀ u, tool_handler s = .ok u →
      u.email_input = none ∧ u.classification_decision = none ∧
      (applyUpdate s u).email_input = s.email_input ∧
      (applyUpdate s u).classification_decision = s.classification_decision) := by
  refine ⟨⟨rfl, rfl, rfl, rfl⟩, ?_⟩
  intro u hu
  unfold tool_handler at hu
  cases hl : s.messages.getLast? with
  | none => rw [hl] at hu; cases hu
  | some last =>
      rw [hl] at hu
      cases hm : tool_msgs last.tool_calls with
      | error e => simp only [hm] at hu; cases hu
      | ok ms =>
          simp only [hm] at hu
          injection hu with h
          subst h
          exact ⟨rfl, rfl, rfl, rfl⟩

/-- Witness for C10 at a concrete state and port. -/
theorem C10_witness :
    tool_handler w5state = .ok w10update ∧
    (llm_call nonDonePort w5state).email_input = none ∧
    w10update.email_input = none ∧
    w10update.classification_decision = none ∧
    (applyUpdate w5state w10update).email_input = w5state.email_input ∧
    (applyUpdate w5state w10update).classification_decision
      = w5state.classification_decision := by
  have h := (C10_frame_only_messages nonDonePort w5state).2 w10update (by rfl)
  exact ⟨rfl, rfl, h.1, h.2.1, h.2.2.1, h.2.2.2⟩

/-- C3: a message triaged `ignore` or `notify` ends the run at once: the
workflow returns with zero act-port calls, an empty message list (no
`llm_call` or `tool_handler` output), and the classification recorded in
the final state. -/
theorem C3_ignore_notify_no_loop (router : RouterPort) (port : ActPort)
    (fuel : Nat) (email : EmailInput)
    (h : (router (triage_ctx (initState email))).classification = "ignore" ∨
         (router (triage_ctx (initState email))).classification = "notify") :
    overall_workflow router port fuel email =
      .ok (.completed
        { messages := []
          email_input := email
          classification_decision :=
            some ((router (triage_ctx (initState email))).classification) }, 0) := by
  have ht : triage_router router (initState email) =
      .ok { goto := .end_
            update :=
              { classification_decision :=
                  some ((router (triage_ctx (initState email))).classification) } } := by
    rcases h with h | h <;> simp [triage_router, h]
  simp only [overall_workflow]
  rw [ht]
  simp [applyUpdate, initState]

/-- Witness for C3: a router that classifies `notify` ends the run with
no act-port calls and no messages. -/
theorem C3_witness :
    ((notifyRouter (triage_ctx (initState wEmail))).classification = "ignore" ∨
     (notifyRouter (triage_ctx (initState wEmail))).classification = "notify") ∧
    overall_workflow notifyRouter noToolPort 5 wEmail =
      .ok (.completed
        { messages := [], email_input := wEmail
          classification_decision := some "notify" }, 0) := by
  have h : (notifyRouter (triage_ctx (initState wEmail))).classification = "notify" := rfl
  exact ⟨Or.inr h, C3_ignore_notify_no_loop notifyRouter noToolPort 5 wEmail (Or.inr h)⟩

/-- C4: a classification outside the ignore/respond/notify enum makes
the triage stage raise (`ValueError`, the spec's
`DecisionContractViolation`): no `Command` is produced and the whole
workflow propagates the error without any state. -/
theorem C4_invalid_classification_raises (router : RouterPort) (port : ActPort)
    (fuel : Nat) (email : EmailInput)
    (h1 : (router (triage_ctx (initState email))).classification ≠ "respond")
    (h2 : (router (triage_ctx (initState email))).classification ≠ "ignore")
    (h3 : (router (triage_ctx (initState email))).classification ≠ "notify") :
    triage_router router (initState email) =
      .error ("Invalid classification: " ++
        (router (triage_ctx (initState email))).classification) ∧
    overall_workflow router port fuel email =
      .error ("Invalid classification: " ++
        (router (triage_ctx (initState email))).classification) := by
  have ht : triage_router router (initState email) =
      .error ("Invalid classification: " ++
        (router (triage_ctx (initState email))).classification) := by
    simp [triage_router, h1, h2, h3]
  exact ⟨ht, by simp [overall_workflow, ht]⟩

/-- Witness for C4: a router answering `banana` makes the run fail with
the `Invalid classification` error. -/
theorem C4_witness :
    (bananaRouter (triage_ctx (initState wEmail))).classification ≠ "respond" ∧
    (bananaRouter (triage_ctx (initState wEmail))).classification ≠ "ignore" ∧
    (bananaRouter (triage_ctx (initState wEmail))).classification ≠ "notify" ∧
    triage_router bananaRouter (initState wEmail) =
      .error "Invalid classification: banana" ∧
    overall_workflow bananaRouter noToolPort 5 wEmail =
      .error "Invalid classification: banana" := by
  have h := C4_invalid_classification_raises bananaRouter noToolPort 5 wEmail
    (by decide) (by decide) (by decide)
  exact ⟨by decide, by decide, by decide, h.1, h.2⟩

/-- C7 (counterexample): for a run whose Memory Store holds updated
background/triage-rule documents, the decision context the claim
describes (built from the store) differs from the context the code
builds — the code interpolates the fixed default constants, and reads no
store. -/
theorem C7_counterexample :
    spec_triage_ctx customStore (initState wEmail) ≠ triage_ctx (initState wEmail) := by
  decide

/-- C7 (amended): the Triage Stage builds its decision context from the
message's author/recipient/subject/thread fields together with the fixed
default background and triage-instruction constants (no Memory Store
read), and consults the Decision Port exactly once — its outcome depends
only on the port's response at that single context. -/
theorem C7_context_and_single_call (r r2 : RouterPort) (s : State)
    (h : r (triage_ctx s) = r2 (triage_ctx s)) :
    triage_ctx s =
      [ { role := .system
          content := triage_system_prompt_format default_background
            default_triage_instructions }
      , { role := .user
          content := triage_user_prompt_format s.email_input.author
            s.email_input.to_ s.email_input.subject s.email_input.email_thread } ] ∧
    triage_router r s = triage_router r2 s := by
  refine ⟨rfl, ?_⟩
  simp only [triage_router, h]

/-- Witness for C7: two ports agreeing on the single triage context give
identical triage outcomes. -/
theorem C7_witness :
    w7router (triage_ctx (initState wEmail)) = w7router2 (triage_ctx (initState wEmail)) ∧
    triage_router w7router (initState wEmail) = triage_router w7router2 (initState wEmail) :=
  ⟨rfl, (C7_context_and_single_call w7router w7router2 (initState wEmail) rfl).2⟩

/-- C1 (amended): when the first tool call of the assistant turn
returned by the Decision Port is named `Done`, the loop transitions to
its terminal state immediately: the final state appends only that
assistant turn (no tool-result turn is appended, no tool is invoked)
and exactly one act call is made.  When `Done` appears at a later batch
position the batch is dispatched and `Done` is executed like any tool —
see the counterexample. -/
theorem C1_done_first_terminal (port : ActPort) (fuel : Nat) (s : State)
    (tc : ToolCall) (rest : List ToolCall)
    (hb : (port (agent_system_msg :: s.messages)).tool_calls = tc :: rest)
    (hn : tc.name = "Done") :
    agent_loop port (fuel + 1) s =
      (.completed { s with messages :=
        s.messages ++ [port (agent_system_msg :: s.messages)] }, 1) := by
  have hsc : should_continue (applyUpdate s (llm_call port s)) = some .end_ := by
    simp only [should_continue, applyUpdate_messages, llm_call]
    rw [messages_getLast_append]
    simp [should_continue_scan, hb, hn]
  simp only [agent_loop]
  rw [hsc]
  rfl

/-- Witness for C1 at a concrete port whose only call is `Done`. -/
theorem C1_witness :
    (doneFirstPort (agent_system_msg :: (initState wEmail).messages)).tool_calls
      = { id := "d1", name := "Done", args := [("done", "true")] } :: [] ∧
    ({ id := "d1", name := "Done", args := [("done", "true")] } : ToolCall).name = "Done" ∧
    agent_loop doneFirstPort 1 (initState wEmail) =
      (.completed { initState wEmail with messages :=
        (initState wEmail).messages ++
          [doneFirstPort (agent_system_msg :: (initState wEmail).messages)] }, 1) :=
  ⟨rfl, rfl,
    C1_done_first_terminal doneFirstPort 0 (initState wEmail) _ [] rfl rfl⟩

/-- C1 (counterexample): with `Done` second in the returned batch the
loop does not reach its terminal state and the `Done` call is executed
as a tool — a tool-result turn carrying its id is appended. -/
theorem C1_counterexample :
    (agent_loop doneSecondPort 1 (initState wEmail)).1.isCompleted = false ∧
    resultCount (agent_loop doneSecondPort 1 (initState wEmail)).1.state "call2" = 1 :=
  ⟨rfl, rfl⟩

/-- C2 (amended): the agent graph configures no round bound and has no
failure path for exceeding one: for a Decision Port that never requests
`Done`, every fuel budget `n` is fully consumed — the loop makes exactly
`n` act calls and is still cycling when the fuel runs out, for all `n`. -/
theorem C2_no_round_bound :
    ∀ n s, ((agent_loop nonDonePort n s).1.isOutOfFuel = true) ∧
           ((agent_loop nonDonePort n s).2 = n) := by
  intro n
  induction n with
  | zero => intro s; exact ⟨rfl, rfl⟩
  | succ n ih =>
      intro s
      have hsc : should_continue (applyUpdate s (llm_call nonDonePort s))
          = some .tool_handler := by
        simp only [should_continue, applyUpdate_messages, llm_call]
        rw [messages_getLast_append]
        simp [should_continue_scan, nonDonePort]
      have hth : tool_handler (applyUpdate s (llm_call nonDonePort s)) = .ok
          { messages := [ { role := .tool
                            content := "Available times on Monday: 9:00 AM, 2:00 PM, 4:00 PM"
                            tool_call_id := some "c" } ] } := by
        simp only [tool_handler, applyUpdate_messages, llm_call]
        rw [messages_getLast_append]
        simp [tool_msgs, run_tool, tools_by_name, nonDonePort,
          check_calendar_availability, lookupArg]
      simp only [agent_loop]
      rw [hsc, hth]
      obtain ⟨h1, h2⟩ := ih (applyUpdate (applyUpdate s (llm_call nonDonePort s))
        { messages := [ { role := .tool
                          content := "Available times on Monday: 9:00 AM, 2:00 PM, 4:00 PM"
                          tool_call_id := some "c" } ] })
      exact ⟨h1, by simp [h2]⟩

/-- C2 (counterexample): a concrete unbounded run — with the never-done
port, 30 rounds make 30 act-port calls with the loop still cycling and
no failure of any kind signalled, contradicting both the claimed fixed
bound on act calls and the claimed guaranteed termination. -/
theorem C2_counterexample :
    (agent_loop nonDonePort 30 (initState wEmail)).1.isOutOfFuel = true ∧
    (agent_loop nonDonePort 30 (initState wEmail)).2 = 30 :=
  ⟨rfl, rfl⟩

/-- C8: replay determinism — with the decision ports, fuel budget and
email input fixed, two executions of the full workflow produce the same
result; in particular the final conversation states and classification
decisions coincide.  All nondeterminism lives behind the port
parameters: the orchestration itself is a pure function of them. -/
theorem C8_replay_deterministic (router : RouterPort) (port : ActPort)
    (fuel : Nat) (email : EmailInput)
    (r1 r2 : Except String (AgentResult × Nat))
    (h1 : overall_workflow router port fuel email = r1)
    (h2 : overall_workflow router port fuel email = r2) :
    r1 = r2 ∧
    ∀ a1 n1 a2 n2, r1 = .ok (a1, n1) → r2 = .ok (a2, n2) →
      a1.state.messages = a2.state.messages ∧
      a1.state.classification_decision = a2.state.classification_decision := by
  subst h1
  subst h2
  refine ⟨rfl, ?_⟩
  intro a1 n1 a2 n2 e1 e2
  rw [e1] at e2
  injection e2 with e3
  injection e3 with e4 e5
  rw [e4]
  exact ⟨rfl, rfl⟩

/-- Witness for C8 at one fixed router, port, fuel and email. -/
theorem C8_witness :
    overall_workflow respondRouter doneFirstPort 3 wEmail = w8run ∧
    w8run = w8run :=
  ⟨rfl, (C8_replay_deterministic respondRouter doneFirstPort 3 wEmail
    w8run w8run rfl rfl).1⟩

/-- Counting tool-result turns distributes over list append. -/
theorem countMsgs_append (a b : List Msg) (i : String) :
    countMsgs (a ++ b) i = countMsgs a i + countMsgs b i := by
  simp [countMsgs, List.filter_append]

/-- A turn that is not a tool-result turn contributes no count. -/
theorem countMsgs_single_none (m : Msg) (hm : m.tool_call_id = none) (i : String) :
    countMsgs [m] i = 0 := by
  simp [countMsgs, hm]

/-- A list of turns none of which carries the id contributes no count. -/
theorem countMsgs_eq_zero (l : List Msg) (i : String)
    (h : ∀ m ∈ l, m.tool_call_id ≠ some i) : countMsgs l i = 0 := by
  simp only [countMsgs, List.length_eq_zero]
  refine List.filter_eq_nil_iff.mpr ?_
  intro m hm
  simp only [beq_iff_eq]
  exact h m hm

/-- The tool-result turns produced for a batch count one per matching
call id. -/
theorem countMsgs_tool_msgs (tcs : List ToolCall) :
    ∀ ms, tool_msgs tcs = .ok ms → ∀ i,
      countMsgs ms i = (tcs.filter (fun tc => tc.id == i)).length := by
  induction tcs with
  | nil =>
      intro ms h i
      cases h
      rfl
  | cons tc rest ih =>
      intro ms h i
      unfold tool_msgs at h
      cases hr : run_tool tc with
      | error e => rw [hr] at h; cases h
      | ok obs =>
          rw [hr] at h
          cases hm : tool_msgs rest with
          | error e => rw [hm] at h; cases h
          | ok ms2 =>
              rw [hm] at h
              injection h with h2
              subst h2
              have hrec := ih ms2 hm i
              by_cases hid : tc.id = i <;>
                simp [countMsgs, List.filter_cons, hid] at hrec ⊢ <;>
                omega

/-- A batch with pairwise-distinct call ids yields at most one call per
id. -/
theorem length_filter_le_one_of_nodup (tcs : List ToolCall)
    (h : (tcs.map ToolCall.id).Nodup) (i : String) :
    (tcs.filter (fun tc => tc.id == i)).length ≤ 1 := by
  induction tcs with
  | nil => simp
  | cons tc rest ih =>
      simp only [List.map_cons, List.nodup_cons] at h
      obtain ⟨hni, hnd⟩ := h
      by_cases hid : tc.id = i
      · have hrest : rest.filter (fun tc2 => tc2.id == i) = [] := by
          refine List.filter_eq_nil_iff.mpr ?_
          intro x hx
          simp only [beq_iff_eq]
          intro hxi
          exact hni (by rw [hid, ← hxi]; exact List.mem_map_of_mem ToolCall.id hx)
        simp [List.filter_cons, hid, hrest]
      · simpa [List.filter_cons, hid] using ih hnd

/-- Appending the assistant turn of a fresh port preserves the
at-most-one-result invariant (an assistant turn is not a tool-result
turn). -/
theorem llm_step_preserves (port : ActPort) (hf : FreshActPort port)
    (s : State) (hinv : AtMostOneResult s) :
    AtMostOneResult (applyUpdate s (llm_call port s)) := by
  intro i
  obtain ⟨-, hnone, -⟩ := hf (agent_system_msg :: s.messages)
  have he : resultCount (applyUpdate s (llm_call port s)) i
      = countMsgs s.messages i
        + countMsgs [port (agent_system_msg :: s.messages)] i := by
    simp [resultCount, applyUpdate_messages, countMsgs_append, llm_call]
  rw [he, countMsgs_single_none _ hnone i]
  simpa using hinv i

/-- Dispatching one batch of tool calls requested by a fresh port
preserves the at-most-one-result invariant. -/
theorem dispatch_preserves (port : ActPort) (hf : FreshActPort port)
    (s : State) (u : Update)
    (hth : tool_handler (applyUpdate s (llm_call port s)) = .ok u)
    (hinv : AtMostOneResult s) :
    AtMostOneResult (applyUpdate (applyUpdate s (llm_call port s)) u) := by
  intro i
  obtain ⟨hnodup, hnone, hfresh⟩ := hf (agent_system_msg :: s.messages)
  have hms : (applyUpdate s (llm_call port s)).messages
      = s.messages ++ [port (agent_system_msg :: s.messages)] := rfl
  unfold tool_handler at hth
  simp only [hms, messages_getLast_append] at hth
  cases htm : tool_msgs (port (agent_system_msg :: s.messages)).tool_calls with
  | error e => simp only [htm] at hth; cases hth
  | ok ms =>
      simp only [htm] at hth
      injection hth with h2
      subst h2
      have hcount := countMsgs_tool_msgs _ ms htm i
      have he : resultCount (applyUpdate (applyUpdate s (llm_call port s))
            { messages := ms }) i
          = countMsgs s.messages i
            + countMsgs (port (agent_system_msg :: s.messages) :: ms) i := by
        simp [resultCount, applyUpdate_messages, countMsgs_append, llm_call]
      have hsplit : countMsgs (port (agent_system_msg :: s.messages) :: ms) i
          = countMsgs [port (agent_system_msg :: s.messages)] i + countMsgs ms i := by
        cases hb : ((port (agent_system_msg :: s.messages)).tool_call_id == some i)
        all_goals simp [countMsgs, List.filter_cons, hb]
        all_goals omega
      rw [he, hsplit, countMsgs_single_none _ hnone i, hcount]
      by_cases hmem : ∃ tc ∈ (port (agent_system_msg :: s.messages)).tool_calls, tc.id = i
      · obtain ⟨tc, htc, hid⟩ := hmem
        have h0 : countMsgs s.messages i = 0 := by
          refine countMsgs_eq_zero _ _ ?_
          intro m hm
          have := hfresh tc htc m (List.mem_cons_of_mem _ hm)
          rw [hid] at this
          exact this
        have hle := length_filter_le_one_of_nodup _ hnodup i
        omega
      · push_neg at hmem
        have h0 : ((port (agent_system_msg :: s.messages)).tool_calls.filter
            (fun tc => tc.id == i)) = [] := by
          refine List.filter_eq_nil_iff.mpr ?_
          intro tc htc
          simp only [beq_iff_eq]
          exact hmem tc htc
        rw [h0]
        simpa using hinv i

/-- C6: run-level invariant — assuming the Decision Port returns
pairwise-distinct call ids never colliding with ids already correlated
in the conversation (the spec's id-uniqueness contract), every state the
loop reaches keeps at most one tool-result turn per call id; and every
tool-result turn the tool handler appends carries exactly the id of its
originating call, in batch order. -/
theorem C6_at_most_one_result (port : ActPort) (fuel : Nat) (s : State)
    (hf : FreshActPort port) (hinv : AtMostOneResult s) :
    AtMostOneResult (agent_loop port fuel s).1.state ∧
    (∀ s2 last u, s2.messages.getLast? = some last → tool_handler s2 = .ok u →
      u.messages.map Msg.tool_call_id
        = last.tool_calls.map (fun tc => some tc.id)) := by
  constructor
  · induction fuel generalizing s with
    | zero => exact hinv
    | succ n ih =>
        have hs1 := llm_step_preserves port hf s hinv
        simp only [agent_loop]
        cases hsc : should_continue (applyUpdate s (llm_call port s)) with
        | none => exact hs1
        | some r =>
            cases r with
            | end_ => exact hs1
            | tool_handler =>
                cases hth : tool_handler (applyUpdate s (llm_call port s)) with
                | error e => exact hs1
                | ok u =>
                    have hs2 := dispatch_preserves port hf s u hth hinv
                    simpa using ih _ hs2
  · intro s2 last u hl hth
    simp only [tool_handler, hl] at hth
    cases htm : tool_msgs last.tool_calls with
    | error e => simp only [htm] at hth; cases hth
    | ok ms =>
        simp only [htm] at hth
        injection hth with h2
        subst h2
        exact tool_msgs_ids _ ms htm

/-- Witness for C6 at a concrete fresh port and the empty initial
state. -/
theorem C6_witness :
    FreshActPort noToolPort ∧ AtMostOneResult (initState wEmail) ∧
    AtMostOneResult ((agent_loop noToolPort 2 (initState wEmail)).1.state) := by
  have hf : FreshActPort noToolPort := by
    intro msgs
    refine ⟨List.nodup_nil, rfl, ?_⟩
    intro tc htc
    exact absurd htc (List.not_mem_nil tc)
  have hinv : AtMostOneResult (initState wEmail) := by
    intro i
    simp [resultCount, countMsgs, initState]
  exact ⟨hf, hinv, (C6_at_most_one_result noToolPort 2 (initState wEmail) hf hinv).1⟩

end EmailAssistant
